import Mathlib

/-!
Verification of the discrete Bayesian-network core of the BayesianModel
repository (src/model.py) against its natural-language specification.

The probabilistic tables, state lists, edges and the weighted-adjustment
function `calcular_probabilidades` are shallowly embedded from src/model.py.
Probabilities are exact rationals (the Python code uses floats whose values
here are all exactly representable decimal fractions), so statements proved
as exact equalities entail the spec's 1e-6 tolerances.

The variable-elimination engine that src/model.py delegates to the external
pgmpy library is not part of the repository's sources; following the spec
(sections 4.2, 4.5 and 9) it is modelled here as a pure function on the
fixed 8-variable network.  Those definitions carry a doc comment starting
with "Modelled from the spec:".
-/

/-- A length-3 probability vector over the outcome states, in the order
`["baja", "media", "alta"]` declared for `probabilidad_sismo` in
src/model.py line 181.  Mirrors the Python lists `[prob_baja, prob_media,
prob_alta]` of `calcular_probabilidades`. -/
structure Vec3 where
  baja : ℚ
  media : ℚ
  alta : ℚ
deriving DecidableEq, Repr

/-- The all-zero adjustment vector, `ajuste = [0, 0, 0]` (model.py line 61). -/
def vzero : Vec3 := ⟨0, 0, 0⟩

/-- Componentwise addition, `[x + y for x, y in zip(a, b)]` (model.py lines 62-68). -/
def vadd (x y : Vec3) : Vec3 := ⟨x.baja + y.baja, x.media + y.media, x.alta + y.alta⟩

/-- Componentwise clamp to `[0, 1]`, `max(0, min(1, p + a))` (model.py line 71). -/
def clampUnit (x : Vec3) : Vec3 :=
  ⟨max 0 (min 1 x.baja), max 0 (min 1 x.media), max 0 (min 1 x.alta)⟩

/-- `sum(probs)` (model.py line 74). -/
def vsum (x : Vec3) : ℚ := x.baja + x.media + x.alta

/-- Componentwise division, `[p / suma for p in probs]` (model.py line 75). -/
def vdiv (x : Vec3) (c : ℚ) : Vec3 := ⟨x.baja / c, x.media / c, x.alta / c⟩

/-- Base probabilities `prob_base = [0.6, 0.3, 0.1]` (model.py line 47). -/
def prob_base : Vec3 := ⟨0.6, 0.3, 0.1⟩

/-- `magnitudes` (model.py line 80). -/
def magnitudes : List String := ["baja", "media", "alta", "desconocida"]

/-- `profundidades` (model.py line 81). -/
def profundidades : List String := ["superficial", "intermedia", "profunda", "desconocida"]

/-- `tiempos` (model.py line 82). -/
def tiempos : List String := ["reciente", "medio", "lejano", "desconocido"]

/-- `fallas` (model.py line 83). -/
def fallas : List String := ["baja", "media", "alta"]

/-- `patrones` (model.py line 84). -/
def patrones : List String := ["esporádico", "regular", "frecuente", "desconocido"]

/-- `intensidades` (model.py line 85). -/
def intensidades : List String := ["baja", "media", "alta", "desconocida"]

/-- `frecuencias` (model.py line 86). -/
def frecuencias : List String := ["baja", "media", "alta", "desconocida"]

/-- The nested adjustment dictionary `factores` of `calcular_probabilidades`
(model.py lines 50-58).  A missing key (a Python `KeyError`) is `none`. -/
def factores : String → String → Option Vec3
  | "magnitud", "baja" => some ⟨0.1, -0.05, -0.05⟩
  | "magnitud", "media" => some ⟨0, 0, 0⟩
  | "magnitud", "alta" => some ⟨-0.2, 0, 0.2⟩
  | "magnitud", "desconocida" => some ⟨0, 0, 0⟩
  | "profundidad", "superficial" => some ⟨-0.1, 0, 0.1⟩
  | "profundidad", "intermedia" => some ⟨0, 0, 0⟩
  | "profundidad", "profunda" => some ⟨0.1, 0, -0.1⟩
  | "profundidad", "desconocida" => some ⟨0, 0, 0⟩
  | "tiempo", "reciente" => some ⟨-0.1, 0, 0.1⟩
  | "tiempo", "medio" => some ⟨0, 0, 0⟩
  | "tiempo", "lejano" => some ⟨0.1, 0, -0.1⟩
  | "tiempo", "desconocido" => some ⟨0, 0, 0⟩
  | "falla", "baja" => some ⟨0.1, 0, -0.1⟩
  | "falla", "media" => some ⟨0, 0, 0⟩
  | "falla", "alta" => some ⟨-0.15, 0, 0.15⟩
  | "patron", "esporádico" => some ⟨0.1, 0, -0.1⟩
  | "patron", "regular" => some ⟨0, 0, 0⟩
  | "patron", "frecuente" => some ⟨-0.15, 0, 0.15⟩
  | "patron", "desconocido" => some ⟨0, 0, 0⟩
  | "intensidad", "baja" => some ⟨0.1, 0, -0.1⟩
  | "intensidad", "media" => some ⟨0, 0, 0⟩
  | "intensidad", "alta" => some ⟨-0.15, 0, 0.15⟩
  | "intensidad", "desconocida" => some ⟨0, 0, 0⟩
  | "frecuencia", "baja" => some ⟨0.1, 0, -0.1⟩
  | "frecuencia", "media" => some ⟨0, 0, 0⟩
  | "frecuencia", "alta" => some ⟨-0.15, 0, 0.15⟩
  | "frecuencia", "desconocida" => some ⟨0, 0, 0⟩
  | _, _ => none

/-- `calcular_probabilidades` (model.py lines 41-77): sum the seven adjustment
vectors onto `ajuste = [0,0,0]`, add to `prob_base` with clamping to `[0,1]`,
then normalize by the sum.  `none` models a Python `KeyError` on a state that
is not a key of the corresponding inner dictionary. -/
def calcular_probabilidades (magnitud profundidad tiempo falla patron intensidad frecuencia : String) : Option Vec3 := do
  let a1 ← factores "magnitud" magnitud
  let a2 ← factores "profundidad" profundidad
  let a3 ← factores "tiempo" tiempo
  let a4 ← factores "falla" falla
  let a5 ← factores "patron" patron
  let a6 ← factores "intensidad" intensidad
  let a7 ← factores "frecuencia" frecuencia
  let ajuste := vadd (vadd (vadd (vadd (vadd (vadd (vadd vzero a1) a2) a3) a4) a5) a6) a7
  let probs := clampUnit (vadd prob_base ajuste)
  let suma := vsum probs
  return vdiv probs suma

/-- Innermost loop of the `itertools.product` enumeration (model.py line 90):
`frecuencia` varies fastest. -/
def prodL7 (m p t fa pa inten : String) : List (String × String × String × String × String × String × String) :=
  frecuencias.map fun fr => (m, p, t, fa, pa, inten, fr)

/-- `intensidad` loop of the `itertools.product` enumeration. -/
def prodL6 (m p t fa pa : String) : List (String × String × String × String × String × String × String) :=
  intensidades.flatMap (prodL7 m p t fa pa)

/-- `patron` loop of the `itertools.product` enumeration. -/
def prodL5 (m p t fa : String) : List (String × String × String × String × String × String × String) :=
  patrones.flatMap (prodL6 m p t fa)

/-- `falla` loop of the `itertools.product` enumeration. -/
def prodL4 (m p t : String) : List (String × String × String × String × String × String × String) :=
  fallas.flatMap (prodL5 m p t)

/-- `tiempo` loop of the `itertools.product` enumeration. -/
def prodL3 (m p : String) : List (String × String × String × String × String × String × String) :=
  tiempos.flatMap (prodL4 m p)

/-- `profundidad` loop of the `itertools.product` enumeration. -/
def prodL2 (m : String) : List (String × String × String × String × String × String × String) :=
  profundidades.flatMap (prodL3 m)

/-- The enumeration `product(magnitudes, profundidades, tiempos, fallas,
patrones, intensidades, frecuencias)` (model.py line 90), in the order of
`itertools.product`: the first list varies slowest, the last fastest. -/
def combos : List (String × String × String × String × String × String × String) :=
  magnitudes.flatMap prodL2

/-- `full_probs` (model.py lines 89-92): the probability column computed for
every combination, in enumeration order.  The source then transposes this
into the 3 x 12288 `values` matrix of `cpd_probabilidad`, whose column `j`
is exactly `full_probs[j]`. -/
def full_probs : List (Option Vec3) :=
  combos.map fun c => calcular_probabilidades c.1 c.2.1 c.2.2.1 c.2.2.2.1 c.2.2.2.2.1 c.2.2.2.2.2.1 c.2.2.2.2.2.2

/-- Modelled from the spec: the column index that pgmpy's `TabularCPD`
assigns to a full assignment of the evidence variables, given
`evidence_card=[4, 4, 4, 3, 4, 4, 4]` — the first declared evidence
variable varies slowest, matching the `itertools.product` order used to
build `full_probs`. -/
def mixedIdx (i1 i2 i3 : Fin 4) (i4 : Fin 3) (i5 i6 i7 : Fin 4) : Nat :=
  i1.val * 3072 + i2.val * 768 + i3.val * 192 + i4.val * 64 + i5.val * 16 + i6.val * 4 + i7.val

/-- `values` of `cpd_magnitud` (model.py line 100). -/
def cpd_magnitud_values : List (List ℚ) := [[0.3], [0.4], [0.2], [0.1]]

/-- `values` of `cpd_profundidad` (model.py line 106). -/
def cpd_profundidad_values : List (List ℚ) := [[0.35], [0.35], [0.2], [0.1]]

/-- `values` of `cpd_tiempo` (model.py line 112). -/
def cpd_tiempo_values : List (List ℚ) := [[0.3], [0.4], [0.2], [0.1]]

/-- `values` of `cpd_falla` (model.py line 118). -/
def cpd_falla_values : List (List ℚ) := [[0.2], [0.5], [0.3]]

/-- `values` of `cpd_patron` (model.py lines 125-130): rows are the states of
`patron_sismico`, columns the states of `actividad_falla`. -/
def cpd_patron_values : List (List ℚ) :=
  [[0.6, 0.3, 0.1],
   [0.3, 0.4, 0.2],
   [0.1, 0.2, 0.4],
   [0.0, 0.1, 0.3]]

/-- `values` of `cpd_intensidad` (model.py lines 142-147): rows are the states
of `intensidad_historica`; the 16 columns enumerate the parent states with
`magnitud_historica` varying slowest and `profundidad_sismica` fastest. -/
def cpd_intensidad_values : List (List ℚ) :=
  [[0.7, 0.6, 0.5, 0.4, 0.5, 0.4, 0.3, 0.2, 0.3, 0.2, 0.1, 0.1, 0.4, 0.3, 0.2, 0.1],
   [0.2, 0.3, 0.3, 0.3, 0.3, 0.4, 0.4, 0.3, 0.4, 0.4, 0.3, 0.2, 0.3, 0.4, 0.3, 0.2],
   [0.1, 0.1, 0.2, 0.2, 0.2, 0.2, 0.3, 0.3, 0.3, 0.4, 0.5, 0.4, 0.2, 0.2, 0.3, 0.3],
   [0.0, 0.0, 0.0, 0.1, 0.0, 0.0, 0.0, 0.2, 0.0, 0.0, 0.1, 0.3, 0.1, 0.1, 0.2, 0.4]]

/-- `values` of `cpd_frecuencia` (model.py lines 160-165). -/
def cpd_frecuencia_values : List (List ℚ) :=
  [[0.7, 0.3, 0.1],
   [0.2, 0.4, 0.2],
   [0.1, 0.2, 0.4],
   [0.0, 0.1, 0.3]]

/-- All entries of a CPD value matrix are non-negative. -/
def matrixNonneg (m : List (List ℚ)) : Bool :=
  m.all fun row => row.all fun x => decide (0 ≤ x)

/-- The sum of column `j` of a CPD value matrix (out-of-range entries read 0). -/
def colSumAt (m : List (List ℚ)) (j : Nat) : ℚ :=
  (m.map fun row => row.getD j 0).sum

/-- Prior of `magnitud_historica` read off `cpd_magnitud_values`. -/
def pmP (i : Fin 4) : ℚ := (cpd_magnitud_values.getD i.val []).getD 0 0

/-- Prior of `profundidad_sismica` read off `cpd_profundidad_values`. -/
def ppP (i : Fin 4) : ℚ := (cpd_profundidad_values.getD i.val []).getD 0 0

/-- Prior of `tiempo_ultimo_sismo` read off `cpd_tiempo_values`. -/
def ptP (i : Fin 4) : ℚ := (cpd_tiempo_values.getD i.val []).getD 0 0

/-- Prior of `actividad_falla` read off `cpd_falla_values`. -/
def pfP (i : Fin 3) : ℚ := (cpd_falla_values.getD i.val []).getD 0 0

/-- P(patron_sismico = r | actividad_falla = c) read off `cpd_patron_values`. -/
def patrP (r : Fin 4) (c : Fin 3) : ℚ := (cpd_patron_values.getD r.val []).getD c.val 0

/-- P(intensidad_historica = r | magnitud_historica = m, profundidad_sismica = p)
read off `cpd_intensidad_values`; the parent column index `m * 4 + p` is
pgmpy's convention for `evidence_card=[4, 4]`. -/
def intenP (r : Fin 4) (m p : Fin 4) : ℚ :=
  (cpd_intensidad_values.getD r.val []).getD (m.val * 4 + p.val) 0

/-- P(frecuencia_mensual = r | actividad_falla = c) read off `cpd_frecuencia_values`. -/
def frecP (r : Fin 4) (c : Fin 3) : ℚ := (cpd_frecuencia_values.getD r.val []).getD c.val 0

/-- Adjustment vector of `magnitud_historica`'s state number `i`. -/
def fmVec (i : Fin 4) : Vec3 := (factores "magnitud" (magnitudes.getD i.val "")).getD vzero

/-- Adjustment vector of `profundidad_sismica`'s state number `i`. -/
def fpVec (i : Fin 4) : Vec3 := (factores "profundidad" (profundidades.getD i.val "")).getD vzero

/-- Adjustment vector of `tiempo_ultimo_sismo`'s state number `i`. -/
def ftVec (i : Fin 4) : Vec3 := (factores "tiempo" (tiempos.getD i.val "")).getD vzero

/-- Adjustment vector of `actividad_falla`'s state number `i`. -/
def ffVec (i : Fin 3) : Vec3 := (factores "falla" (fallas.getD i.val "")).getD vzero

/-- Adjustment vector of `patron_sismico`'s state number `i`. -/
def fpaVec (i : Fin 4) : Vec3 := (factores "patron" (patrones.getD i.val "")).getD vzero

/-- Adjustment vector of `intensidad_historica`'s state number `i`. -/
def fiVec (i : Fin 4) : Vec3 := (factores "intensidad" (intensidades.getD i.val "")).getD vzero

/-- Adjustment vector of `frecuencia_mensual`'s state number `i`. -/
def ffrVec (i : Fin 4) : Vec3 := (factores "frecuencia" (frecuencias.getD i.val "")).getD vzero

/-- The summed adjustment `ajuste` of `calcular_probabilidades`, indexed by
state numbers instead of state labels (model.py lines 61-68). -/
def ajusteAt (i1 i2 i3 : Fin 4) (i4 : Fin 3) (i5 i6 i7 : Fin 4) : Vec3 :=
  vadd (vadd (vadd (vadd (vadd (vadd (vadd vzero (fmVec i1)) (fpVec i2)) (ftVec i3)) (ffVec i4)) (fpaVec i5)) (fiVec i6)) (ffrVec i7)

/-- The clamped, unnormalized `probs` of `calcular_probabilidades`
(model.py line 71), indexed by state numbers. -/
def sismoColPre (i1 i2 i3 : Fin 4) (i4 : Fin 3) (i5 i6 i7 : Fin 4) : Vec3 :=
  clampUnit (vadd prob_base (ajusteAt i1 i2 i3 i4 i5 i6 i7))

/-- The normalized probability column of `cpd_probabilidad` for a full parent
assignment: `evidenceCombinationToProbabilities` in the spec's words (spec
section 9), computing what `calcular_probabilidades` returns on the states
with these numbers. -/
def sismoCol (i1 i2 i3 : Fin 4) (i4 : Fin 3) (i5 i6 i7 : Fin 4) : Vec3 :=
  vdiv (sismoColPre i1 i2 i3 i4 i5 i6 i7) (vsum (sismoColPre i1 i2 i3 i4 i5 i6 i7))

/-- Component `s` of a `Vec3`, aligned with the outcome states
`["baja", "media", "alta"]`. -/
def vget (v : Vec3) : Fin 3 → ℚ
  | 0 => v.baja
  | 1 => v.media
  | 2 => v.alta

/-- Entry of the outcome CPD: P(probabilidad_sismo = s | parents). -/
def sismoComp (i1 i2 i3 : Fin 4) (i4 : Fin 3) (i5 i6 i7 : Fin 4) (s : Fin 3) : ℚ :=
  vget (sismoCol i1 i2 i3 i4 i5 i6 i7) s

/-- Modelled from the spec: an evidence mapping (spec section 3) over the
seven evidence variables of the network — each variable is either observed
in one of its declared states (numbered), or unobserved. -/
structure Evidence7 where
  mag : Option (Fin 4)
  prof : Option (Fin 4)
  tiem : Option (Fin 4)
  fall : Option (Fin 3)
  patr : Option (Fin 4)
  inten : Option (Fin 4)
  frec : Option (Fin 4)
deriving DecidableEq, Repr

/-- Modelled from the spec: one step of variable elimination (spec section
4.5): an observed variable is fixed to its evidence state (reduction, spec
section 4.2), an unobserved one is summed out (marginalization). -/
def sumOver {n : ℕ} (o : Option (Fin n)) (f : Fin n → ℚ) : ℚ :=
  match o with
  | some i => f i
  | none => ∑ i, f i

/-- Modelled from the spec: the unnormalized posterior
P(probabilidad_sismo = s, evidence) computed by variable elimination over
the fixed network of src/model.py — the product of all eight CPDs with the
evidence variables reduced and all other variables summed out in
declaration order (spec sections 4.5 and 8). -/
def unnorm (ev : Evidence7) (s : Fin 3) : ℚ :=
  sumOver ev.mag fun i1 => pmP i1 *
    (sumOver ev.prof fun i2 => ppP i2 *
      (sumOver ev.tiem fun i3 => ptP i3 *
        (sumOver ev.fall fun i4 => pfP i4 *
          (sumOver ev.patr fun i5 => patrP i5 i4 *
            (sumOver ev.inten fun i6 => intenP i6 i1 i2 *
              (sumOver ev.frec fun i7 => frecP i7 i4 *
                sismoComp i1 i2 i3 i4 i5 i6 i7 s))))))

/-- Modelled from the spec: the prior probability of the evidence under the
model — the normalization constant of the elimination engine. -/
def priorEv (ev : Evidence7) : ℚ := unnorm ev 0 + unnorm ev 1 + unnorm ev 2

/-- Modelled from the spec: `query(network, ["probabilidad_sismo"], evidence)`
(spec sections 4.5 and 6) on the network of src/model.py.  Returns the
normalized posterior over the three outcome states, or `none` when the
evidence has zero prior probability (`ZeroProbabilityEvidence`). -/
def querySismo (ev : Evidence7) : Option Vec3 :=
  if priorEv ev = 0 then none
  else some ⟨unnorm ev 0 / priorEv ev, unnorm ev 1 / priorEv ev, unnorm ev 2 / priorEv ev⟩

/-- Full evidence: all seven evidence variables observed, as in the example
query of model.py lines 206-216 and in `predecir_sismo` of graph.py. -/
def fullEv (i1 i2 i3 : Fin 4) (i4 : Fin 3) (i5 i6 i7 : Fin 4) : Evidence7 :=
  ⟨some i1, some i2, some i3, some i4, some i5, some i6, some i7⟩

/-- A joint state of all eight network variables, in declaration order with
the outcome variable last. -/
abbrev JIdx := Fin 4 × Fin 4 × Fin 4 × Fin 3 × Fin 4 × Fin 4 × Fin 4 × Fin 3

/-- The product of all eight CPDs of the network at one joint state — the
joint distribution the spec's global consistency check multiplies out
(spec sections 4.4 and 8). -/
def jointAt : JIdx → ℚ
  | (i1, i2, i3, i4, i5, i6, i7, s) =>
    pmP i1 * (ppP i2 * (ptP i3 * (pfP i4 * (patrP i5 i4 *
      (intenP i6 i1 i2 * (frecP i7 i4 * sismoComp i1 i2 i3 i4 i5 i6 i7 s))))))

/-- The joint distribution marginalized over every variable: the quantity the
spec's global consistency check compares to 1 (spec section 8). -/
def globalSum : ℚ := ∑ j : JIdx, jointAt j

/-- The node set of the network, `model.add_nodes_from` (model.py lines 14-23). -/
def network_nodes : List String :=
  ["magnitud_historica", "profundidad_sismica", "tiempo_ultimo_sismo", "actividad_falla",
   "patron_sismico", "intensidad_historica", "frecuencia_mensual", "probabilidad_sismo"]

/-- States of `probabilidad_sismo` (model.py line 181). -/
def sismo_states : List String := ["baja", "media", "alta"]

/-- The declared state list of each network variable (model.py lines 80-86
and 181); unknown variables have no states. -/
def statesOf : String → List String
  | "magnitud_historica" => magnitudes
  | "profundidad_sismica" => profundidades
  | "tiempo_ultimo_sismo" => tiempos
  | "actividad_falla" => fallas
  | "patron_sismico" => patrones
  | "intensidad_historica" => intensidades
  | "frecuencia_mensual" => frecuencias
  | "probabilidad_sismo" => sismo_states
  | _ => []

/-- Modelled from the spec: the query-time error taxonomy of spec sections
4.5 and 7.  `unsupportedQuery` marks query-variable sets other than the
single query `["probabilidad_sismo"]` that both callers in the repository
(graph.py and run_model.py) issue; the embedding specializes the engine to
that query. -/
inductive QueryError where
  | unknownVariable
  | unknownState
  | evidenceQueryOverlap
  | zeroProbabilityEvidence
  | unsupportedQuery
deriving DecidableEq, Repr

/-- State number of a `magnitud_historica` state label. -/
def magIdxOf : String → Option (Fin 4)
  | "baja" => some 0
  | "media" => some 1
  | "alta" => some 2
  | "desconocida" => some 3
  | _ => none

/-- State number of a `profundidad_sismica` state label. -/
def profIdxOf : String → Option (Fin 4)
  | "superficial" => some 0
  | "intermedia" => some 1
  | "profunda" => some 2
  | "desconocida" => some 3
  | _ => none

/-- State number of a `tiempo_ultimo_sismo` state label. -/
def tiemIdxOf : String → Option (Fin 4)
  | "reciente" => some 0
  | "medio" => some 1
  | "lejano" => some 2
  | "desconocido" => some 3
  | _ => none

/-- State number of an `actividad_falla` state label. -/
def fallIdxOf : String → Option (Fin 3)
  | "baja" => some 0
  | "media" => some 1
  | "alta" => some 2
  | _ => none

/-- State number of a `patron_sismico` state label. -/
def patrIdxOf : String → Option (Fin 4)
  | "esporádico" => some 0
  | "regular" => some 1
  | "frecuente" => some 2
  | "desconocido" => some 3
  | _ => none

/-- State number of an `intensidad_historica` state label. -/
def intenIdxOf : String → Option (Fin 4)
  | "baja" => some 0
  | "media" => some 1
  | "alta" => some 2
  | "desconocida" => some 3
  | _ => none

/-- State number of a `frecuencia_mensual` state label. -/
def frecIdxOf : String → Option (Fin 4)
  | "baja" => some 0
  | "media" => some 1
  | "alta" => some 2
  | "desconocida" => some 3
  | _ => none

/-- Modelled from the spec: turn a validated string evidence mapping into the
numbered evidence the elimination engine consumes. -/
def toEv7 (evidence : List (String × String)) : Evidence7 :=
  ⟨(evidence.lookup "magnitud_historica").bind magIdxOf,
   (evidence.lookup "profundidad_sismica").bind profIdxOf,
   (evidence.lookup "tiempo_ultimo_sismo").bind tiemIdxOf,
   (evidence.lookup "actividad_falla").bind fallIdxOf,
   (evidence.lookup "patron_sismico").bind patrIdxOf,
   (evidence.lookup "intensidad_historica").bind intenIdxOf,
   (evidence.lookup "frecuencia_mensual").bind frecIdxOf⟩

/-- Modelled from the spec: `query` with the step-1 validation of spec
section 4.5 — every query variable and evidence key must be a network
variable (`UnknownVariable`), evidence and query sets must be disjoint
(`EvidenceQueryOverlap`), and every evidence value must be a declared state
of its variable (`UnknownState`); only then is elimination run. -/
def queryChecked (queryVars : List String) (evidence : List (String × String)) : Except QueryError Vec3 :=
  if (queryVars.all fun v => network_nodes.contains v) = false then .error .unknownVariable
  else if (evidence.all fun e => network_nodes.contains e.1) = false then .error .unknownVariable
  else if (evidence.any fun e => queryVars.contains e.1) = true then .error .evidenceQueryOverlap
  else if (evidence.all fun e => (statesOf e.1).contains e.2) = false then .error .unknownState
  else
    match queryVars with
    | ["probabilidad_sismo"] =>
      match querySismo (toEv7 evidence) with
      | some v => .ok v
      | none => .error .zeroProbabilityEvidence
    | _ => .error .unsupportedQuery

/-- The directed edges of the network, `model.add_edges_from`
(model.py lines 26-38). -/
def model_edges : List (String × String) :=
  [("magnitud_historica", "intensidad_historica"),
   ("profundidad_sismica", "intensidad_historica"),
   ("actividad_falla", "patron_sismico"),
   ("actividad_falla", "frecuencia_mensual"),
   ("magnitud_historica", "probabilidad_sismo"),
   ("profundidad_sismica", "probabilidad_sismo"),
   ("tiempo_ultimo_sismo", "probabilidad_sismo"),
   ("actividad_falla", "probabilidad_sismo"),
   ("patron_sismico", "probabilidad_sismo"),
   ("intensidad_historica", "probabilidad_sismo"),
   ("frecuencia_mensual", "probabilidad_sismo")]

/-- A topological rank for the network's nodes: the position in the node
declaration order of model.py lines 14-23. -/
def nodeRank : String → ℕ
  | "magnitud_historica" => 0
  | "profundidad_sismica" => 1
  | "tiempo_ultimo_sismo" => 2
  | "actividad_falla" => 3
  | "patron_sismico" => 4
  | "intensidad_historica" => 5
  | "frecuencia_mensual" => 6
  | "probabilidad_sismo" => 7
  | _ => 8

/-- The edge relation of the network graph. -/
def edgeRel (u v : String) : Prop := (u, v) ∈ model_edges

/-- Modelled from the spec: a factor (spec section 3) over variables `V` with
states `S` — an ordered scope together with a dense table of values, here
represented by its lookup function on assignments. -/
structure Factor (V S : Type) where
  scope : List V
  val : (V → S) → ℚ

/-- Modelled from the spec: evidence reduction (spec section 4.2, `reduce`):
restrict a factor to the slice where `v = s`, removing `v` from the scope. -/
def Factor.reduce [DecidableEq V] (f : Factor V S) (v : V) (s : S) : Factor V S :=
  ⟨f.scope.erase v, fun a => f.val (Function.update a v s)⟩

/-- A concrete two-variable factor used to exhibit evidence-reduction
commutativity on an explicit input. -/
def sampleFactor : Factor String String :=
  ⟨["magnitud_historica", "actividad_falla"], fun a => if a "magnitud_historica" = "alta" then 0.7 else 0.3⟩

/-! ## Helper lemmas: list indexing and the `itertools.product` enumeration -/

lemma getElem?_eq_some_getD {α : Type} (l : List α) (d : α) (i : ℕ) (h : i < l.length) :
    l[i]? = some (l.getD i d) := by
  rw [List.getElem?_eq_getElem h, List.getD_eq_getElem l d h]

lemma flatMap_getElem {α β : Type} (f : α → List β) (L : ℕ) (hL : ∀ x, (f x).length = L) :
    ∀ (xs : List α) (i j : ℕ), j < L → ∀ x, xs[i]? = some x →
      (xs.flatMap f)[i * L + j]? = (f x)[j]? := by
  intro xs
  induction xs with
  | nil => intro i j hj x hx; simp at hx
  | cons y ys ih =>
    intro i j hj x hx
    cases i with
    | zero =>
      rw [List.flatMap_cons, Nat.zero_mul, Nat.zero_add,
        List.getElem?_append_left (by rw [hL]; exact hj)]
      simp only [List.getElem?_cons_zero, Option.some_inj] at hx
      rw [hx]
    | succ i' =>
      rw [List.flatMap_cons,
        List.getElem?_append_right (by rw [hL, Nat.succ_mul]; omega)]
      have harr : (i' + 1) * L + j - (f y).length = i' * L + j := by
        rw [hL, Nat.succ_mul]; omega
      rw [harr]
      exact ih i' j hj x (by simpa using hx)

lemma prodL7_length (m p t fa pa inten : String) : (prodL7 m p t fa pa inten).length = 4 := by
  simp [prodL7, frecuencias]

lemma prodL6_length (m p t fa pa : String) : (prodL6 m p t fa pa).length = 16 := by
  simp [prodL6, List.length_flatMap, prodL7_length, intensidades]

lemma prodL5_length (m p t fa : String) : (prodL5 m p t fa).length = 64 := by
  simp [prodL5, List.length_flatMap, prodL6_length, patrones]

lemma prodL4_length (m p t : String) : (prodL4 m p t).length = 192 := by
  simp [prodL4, List.length_flatMap, prodL5_length, fallas]

lemma prodL3_length (m p : String) : (prodL3 m p).length = 768 := by
  simp [prodL3, List.length_flatMap, prodL4_length, tiempos]

lemma prodL2_length (m : String) : (prodL2 m).length = 3072 := by
  simp [prodL2, List.length_flatMap, prodL3_length, profundidades]

/-- Looking up the `itertools.product` enumeration at the pgmpy column index
of a full parent assignment yields exactly that assignment's state tuple. -/
lemma combos_getElem (i1 i2 i3 : Fin 4) (i4 : Fin 3) (i5 i6 i7 : Fin 4) :
    combos[mixedIdx i1 i2 i3 i4 i5 i6 i7]? =
      some (magnitudes.getD i1.val "", profundidades.getD i2.val "", tiempos.getD i3.val "",
        fallas.getD i4.val "", patrones.getD i5.val "", intensidades.getD i6.val "",
        frecuencias.getD i7.val "") := by
  have hidx : mixedIdx i1 i2 i3 i4 i5 i6 i7 =
      i1.val * 3072 + (i2.val * 768 + (i3.val * 192 + (i4.val * 64 +
        (i5.val * 16 + (i6.val * 4 + i7.val))))) := by
    unfold mixedIdx; omega
  have h2 : i2.val * 768 + (i3.val * 192 + (i4.val * 64 + (i5.val * 16 + (i6.val * 4 + i7.val)))) < 3072 := by omega
  have h3 : i3.val * 192 + (i4.val * 64 + (i5.val * 16 + (i6.val * 4 + i7.val))) < 768 := by omega
  have h4 : i4.val * 64 + (i5.val * 16 + (i6.val * 4 + i7.val)) < 192 := by omega
  have h5 : i5.val * 16 + (i6.val * 4 + i7.val) < 64 := by omega
  have h6 : i6.val * 4 + i7.val < 16 := by omega
  rw [hidx]
  rw [show combos = magnitudes.flatMap prodL2 from rfl]
  rw [flatMap_getElem prodL2 3072 prodL2_length magnitudes i1.val _ h2 _
    (getElem?_eq_some_getD magnitudes "" i1.val i1.isLt)]
  rw [prodL2]
  rw [flatMap_getElem (prodL3 (magnitudes.getD i1.val "")) 768
    (prodL3_length (magnitudes.getD i1.val "")) profundidades i2.val _ h3 _
    (getElem?_eq_some_getD profundidades "" i2.val i2.isLt)]
  rw [prodL3]
  rw [flatMap_getElem (prodL4 (magnitudes.getD i1.val "") (profundidades.getD i2.val "")) 192
    (prodL4_length (magnitudes.getD i1.val "") (profundidades.getD i2.val "")) tiempos i3.val _ h4 _
    (getElem?_eq_some_getD tiempos "" i3.val i3.isLt)]
  rw [prodL4]
  rw [flatMap_getElem (prodL5 (magnitudes.getD i1.val "") (profundidades.getD i2.val "") (tiempos.getD i3.val "")) 64
    (prodL5_length (magnitudes.getD i1.val "") (profundidades.getD i2.val "") (tiempos.getD i3.val "")) fallas i4.val _ h5 _
    (getElem?_eq_some_getD fallas "" i4.val i4.isLt)]
  rw [prodL5]
  rw [flatMap_getElem (prodL6 (magnitudes.getD i1.val "") (profundidades.getD i2.val "") (tiempos.getD i3.val "") (fallas.getD i4.val "")) 16
    (prodL6_length (magnitudes.getD i1.val "") (profundidades.getD i2.val "") (tiempos.getD i3.val "") (fallas.getD i4.val "")) patrones i5.val _ h6 _
    (getElem?_eq_some_getD patrones "" i5.val i5.isLt)]
  rw [prodL6]
  rw [flatMap_getElem (prodL7 (magnitudes.getD i1.val "") (profundidades.getD i2.val "") (tiempos.getD i3.val "") (fallas.getD i4.val "") (patrones.getD i5.val "")) 4
    (prodL7_length (magnitudes.getD i1.val "") (profundidades.getD i2.val "") (tiempos.getD i3.val "") (fallas.getD i4.val "") (patrones.getD i5.val "")) intensidades i6.val _ i7.isLt _
    (getElem?_eq_some_getD intensidades "" i6.val i6.isLt)]
  rw [prodL7]
  rw [List.getElem?_map, getElem?_eq_some_getD frecuencias "" i7.val i7.isLt]
  rfl

/-- Looking up `full_probs` at the pgmpy column index of a full parent
assignment yields `calcular_probabilidades` applied to that assignment. -/
lemma full_probs_getElem (i1 i2 i3 : Fin 4) (i4 : Fin 3) (i5 i6 i7 : Fin 4) :
    full_probs[mixedIdx i1 i2 i3 i4 i5 i6 i7]? =
      some (calcular_probabilidades (magnitudes.getD i1.val "") (profundidades.getD i2.val "")
        (tiempos.getD i3.val "") (fallas.getD i4.val "") (patrones.getD i5.val "")
        (intensidades.getD i6.val "") (frecuencias.getD i7.val "")) := by
  rw [show full_probs = combos.map fun c => calcular_probabilidades c.1 c.2.1 c.2.2.1 c.2.2.2.1 c.2.2.2.2.1 c.2.2.2.2.2.1 c.2.2.2.2.2.2 from rfl]
  rw [List.getElem?_map, combos_getElem]
  rfl

/-! ## Helper lemmas: the adjustment vectors and the outcome column -/

lemma fin4_val_three : ((3 : Fin 4) : ℕ) = 3 := rfl

lemma clampUnit_baja (x : Vec3) : (clampUnit x).baja = max 0 (min 1 x.baja) := rfl

lemma clampUnit_media (x : Vec3) : (clampUnit x).media = max 0 (min 1 x.media) := rfl

lemma clampUnit_alta (x : Vec3) : (clampUnit x).alta = max 0 (min 1 x.alta) := rfl

lemma vget_zero (v : Vec3) : vget v 0 = v.baja := rfl

lemma vget_one (v : Vec3) : vget v 1 = v.media := rfl

lemma vget_two (v : Vec3) : vget v 2 = v.alta := rfl

lemma fmVec_media : ∀ i : Fin 4, -0.05 ≤ (fmVec i).media ∧ (fmVec i).media ≤ 0
  | 0 => by norm_num [show fmVec 0 = ⟨0.1, -0.05, -0.05⟩ from rfl]
  | 1 => by norm_num [show fmVec 1 = ⟨0, 0, 0⟩ from rfl]
  | 2 => by norm_num [show fmVec 2 = ⟨-0.2, 0, 0.2⟩ from rfl]
  | 3 => by norm_num [show fmVec 3 = ⟨0, 0, 0⟩ from rfl]

lemma fpVec_media : ∀ i : Fin 4, (fpVec i).media = 0
  | 0 => rfl
  | 1 => rfl
  | 2 => rfl
  | 3 => rfl

lemma ftVec_media : ∀ i : Fin 4, (ftVec i).media = 0
  | 0 => rfl
  | 1 => rfl
  | 2 => rfl
  | 3 => rfl

lemma ffVec_media : ∀ i : Fin 3, (ffVec i).media = 0
  | 0 => rfl
  | 1 => rfl
  | 2 => rfl

lemma fpaVec_media : ∀ i : Fin 4, (fpaVec i).media = 0
  | 0 => rfl
  | 1 => rfl
  | 2 => rfl
  | 3 => rfl

lemma fiVec_media : ∀ i : Fin 4, (fiVec i).media = 0
  | 0 => rfl
  | 1 => rfl
  | 2 => rfl
  | 3 => rfl

lemma ffrVec_media : ∀ i : Fin 4, (ffrVec i).media = 0
  | 0 => rfl
  | 1 => rfl
  | 2 => rfl
  | 3 => rfl

lemma ajusteAt_media (i1 i2 i3 : Fin 4) (i4 : Fin 3) (i5 i6 i7 : Fin 4) :
    (ajusteAt i1 i2 i3 i4 i5 i6 i7).media = (fmVec i1).media := by
  simp [ajusteAt, vadd, vzero, fpVec_media i2, ftVec_media i3, ffVec_media i4,
    fpaVec_media i5, fiVec_media i6, ffrVec_media i7]

/-- After clamping, the `media` component of the unnormalized probability
vector is at least 1/4: its only negative adjustment is the -0.05 of
`magnitud = "baja"`. -/
lemma sismoColPre_media (i1 i2 i3 : Fin 4) (i4 : Fin 3) (i5 i6 i7 : Fin 4) :
    1/4 ≤ (sismoColPre i1 i2 i3 i4 i5 i6 i7).media := by
  have h := fmVec_media i1
  simp only [sismoColPre, clampUnit_media, vadd, prob_base, ajusteAt_media]
  exact le_max_of_le_right (le_min_iff.2 ⟨by norm_num, by rcases h with ⟨h1, h2⟩; linarith⟩)

lemma sismoColPre_nonneg (i1 i2 i3 : Fin 4) (i4 : Fin 3) (i5 i6 i7 : Fin 4) :
    0 ≤ (sismoColPre i1 i2 i3 i4 i5 i6 i7).baja ∧
    0 ≤ (sismoColPre i1 i2 i3 i4 i5 i6 i7).media ∧
    0 ≤ (sismoColPre i1 i2 i3 i4 i5 i6 i7).alta := by
  simp only [sismoColPre, clampUnit_baja, clampUnit_media, clampUnit_alta]
  exact ⟨le_max_left 0 _, le_max_left 0 _, le_max_left 0 _⟩

/-- The normalizing sum of `calcular_probabilidades` is strictly positive. -/
lemma sismoColPre_sum_pos (i1 i2 i3 : Fin 4) (i4 : Fin 3) (i5 i6 i7 : Fin 4) :
    0 < vsum (sismoColPre i1 i2 i3 i4 i5 i6 i7) := by
  have h1 := sismoColPre_nonneg i1 i2 i3 i4 i5 i6 i7
  have h2 := sismoColPre_media i1 i2 i3 i4 i5 i6 i7
  rcases h1 with ⟨hb, hm, ha⟩
  simp only [vsum]
  linarith

lemma sismoCol_nonneg (i1 i2 i3 : Fin 4) (i4 : Fin 3) (i5 i6 i7 : Fin 4) :
    0 ≤ (sismoCol i1 i2 i3 i4 i5 i6 i7).baja ∧
    0 ≤ (sismoCol i1 i2 i3 i4 i5 i6 i7).media ∧
    0 ≤ (sismoCol i1 i2 i3 i4 i5 i6 i7).alta := by
  have h1 := sismoColPre_nonneg i1 i2 i3 i4 i5 i6 i7
  have h2 := (sismoColPre_sum_pos i1 i2 i3 i4 i5 i6 i7).le
  rcases h1 with ⟨hb, hm, ha⟩
  exact ⟨div_nonneg hb h2, div_nonneg hm h2, div_nonneg ha h2⟩

/-- Every column of the outcome CPD sums exactly to 1. -/
lemma sismoCol_sum (i1 i2 i3 : Fin 4) (i4 : Fin 3) (i5 i6 i7 : Fin 4) :
    vsum (sismoCol i1 i2 i3 i4 i5 i6 i7) = 1 := by
  have h := (sismoColPre_sum_pos i1 i2 i3 i4 i5 i6 i7).ne'
  simp only [sismoCol, vdiv, vsum]
  rw [div_add_div_same, div_add_div_same]
  exact div_self h

lemma sismoComp_nonneg (i1 i2 i3 : Fin 4) (i4 : Fin 3) (i5 i6 i7 : Fin 4) (s : Fin 3) :
    0 ≤ sismoComp i1 i2 i3 i4 i5 i6 i7 s := by
  have h := sismoCol_nonneg i1 i2 i3 i4 i5 i6 i7
  fin_cases s
  · exact h.1
  · exact h.2.1
  · exact h.2.2

lemma sum_sismoComp (i1 i2 i3 : Fin 4) (i4 : Fin 3) (i5 i6 i7 : Fin 4) :
    ∑ s : Fin 3, sismoComp i1 i2 i3 i4 i5 i6 i7 s = 1 := by
  rw [Fin.sum_univ_three]
  exact sismoCol_sum i1 i2 i3 i4 i5 i6 i7

/-! ## Helper lemmas: the seven fixed CPD tables -/

lemma pmP_nonneg (i : Fin 4) : 0 ≤ pmP i := by
  fin_cases i <;> norm_num [pmP, cpd_magnitud_values]

lemma ppP_nonneg (i : Fin 4) : 0 ≤ ppP i := by
  fin_cases i <;> norm_num [ppP, cpd_profundidad_values]

lemma ptP_nonneg (i : Fin 4) : 0 ≤ ptP i := by
  fin_cases i <;> norm_num [ptP, cpd_tiempo_values]

lemma pfP_nonneg (i : Fin 3) : 0 ≤ pfP i := by
  fin_cases i <;> norm_num [pfP, cpd_falla_values]

lemma patrP_nonneg (r : Fin 4) (c : Fin 3) : 0 ≤ patrP r c := by
  fin_cases r <;> fin_cases c <;> norm_num [patrP, cpd_patron_values]

lemma intenP_nonneg (r m p : Fin 4) : 0 ≤ intenP r m p := by
  fin_cases r <;> fin_cases m <;> fin_cases p <;> norm_num [intenP, cpd_intensidad_values]

lemma frecP_nonneg (r : Fin 4) (c : Fin 3) : 0 ≤ frecP r c := by
  fin_cases r <;> fin_cases c <;> norm_num [frecP, cpd_frecuencia_values]

lemma sum_pmP : ∑ i : Fin 4, pmP i = 1 := by
  rw [Fin.sum_univ_four]
  norm_num [pmP, cpd_magnitud_values, fin4_val_three]

lemma sum_ppP : ∑ i : Fin 4, ppP i = 1 := by
  rw [Fin.sum_univ_four]
  norm_num [ppP, cpd_profundidad_values, fin4_val_three]

lemma sum_ptP : ∑ i : Fin 4, ptP i = 1 := by
  rw [Fin.sum_univ_four]
  norm_num [ptP, cpd_tiempo_values, fin4_val_three]

lemma sum_pfP : ∑ i : Fin 3, pfP i = 1 := by
  rw [Fin.sum_univ_three]
  norm_num [pfP, cpd_falla_values]

lemma sum_patrP (c : Fin 3) : ∑ r : Fin 4, patrP r c = 1 := by
  fin_cases c <;> (rw [Fin.sum_univ_four]; norm_num [patrP, cpd_patron_values, fin4_val_three])

lemma sum_intenP (m p : Fin 4) : ∑ r : Fin 4, intenP r m p = 1 := by
  fin_cases m <;> fin_cases p <;>
    (rw [Fin.sum_univ_four]; norm_num [intenP, cpd_intensidad_values, fin4_val_three])

lemma sum_frecP (c : Fin 3) : ∑ r : Fin 4, frecP r c = 1 := by
  fin_cases c <;> (rw [Fin.sum_univ_four]; norm_num [frecP, cpd_frecuencia_values, fin4_val_three])

/-! ## Helper lemmas: `calcular_probabilidades` against the indexed column -/

lemma factores_mag_at : ∀ i : Fin 4, factores "magnitud" (magnitudes.getD i.val "") = some (fmVec i)
  | 0 => rfl
  | 1 => rfl
  | 2 => rfl
  | 3 => rfl

lemma factores_prof_at : ∀ i : Fin 4, factores "profundidad" (profundidades.getD i.val "") = some (fpVec i)
  | 0 => rfl
  | 1 => rfl
  | 2 => rfl
  | 3 => rfl

lemma factores_tiem_at : ∀ i : Fin 4, factores "tiempo" (tiempos.getD i.val "") = some (ftVec i)
  | 0 => rfl
  | 1 => rfl
  | 2 => rfl
  | 3 => rfl

lemma factores_fall_at : ∀ i : Fin 3, factores "falla" (fallas.getD i.val "") = some (ffVec i)
  | 0 => rfl
  | 1 => rfl
  | 2 => rfl

lemma factores_patr_at : ∀ i : Fin 4, factores "patron" (patrones.getD i.val "") = some (fpaVec i)
  | 0 => rfl
  | 1 => rfl
  | 2 => rfl
  | 3 => rfl

lemma factores_inten_at : ∀ i : Fin 4, factores "intensidad" (intensidades.getD i.val "") = some (fiVec i)
  | 0 => rfl
  | 1 => rfl
  | 2 => rfl
  | 3 => rfl

lemma factores_frec_at : ∀ i : Fin 4, factores "frecuencia" (frecuencias.getD i.val "") = some (ffrVec i)
  | 0 => rfl
  | 1 => rfl
  | 2 => rfl
  | 3 => rfl

/-- `calcular_probabilidades` on the states with the given numbers succeeds
and returns exactly the indexed outcome column `sismoCol`. -/
lemma calcular_at (i1 i2 i3 : Fin 4) (i4 : Fin 3) (i5 i6 i7 : Fin 4) :
    calcular_probabilidades (magnitudes.getD i1.val "") (profundidades.getD i2.val "")
      (tiempos.getD i3.val "") (fallas.getD i4.val "") (patrones.getD i5.val "")
      (intensidades.getD i6.val "") (frecuencias.getD i7.val "") =
      some (sismoCol i1 i2 i3 i4 i5 i6 i7) := by
  simp only [calcular_probabilidades, factores_mag_at, factores_prof_at, factores_tiem_at,
    factores_fall_at, factores_patr_at, factores_inten_at, factores_frec_at]
  rfl

/-! ## Helper lemmas: the elimination engine -/

lemma sumOver_nonneg {n : ℕ} (o : Option (Fin n)) (f : Fin n → ℚ) (h : ∀ i, 0 ≤ f i) :
    0 ≤ sumOver o f := by
  cases o with
  | none => exact Finset.sum_nonneg fun i _ => h i
  | some i => exact h i

lemma unnorm_nonneg (ev : Evidence7) (s : Fin 3) : 0 ≤ unnorm ev s := by
  unfold unnorm
  apply sumOver_nonneg
  intro i1
  apply mul_nonneg (pmP_nonneg i1)
  apply sumOver_nonneg
  intro i2
  apply mul_nonneg (ppP_nonneg i2)
  apply sumOver_nonneg
  intro i3
  apply mul_nonneg (ptP_nonneg i3)
  apply sumOver_nonneg
  intro i4
  apply mul_nonneg (pfP_nonneg i4)
  apply sumOver_nonneg
  intro i5
  apply mul_nonneg (patrP_nonneg i5 i4)
  apply sumOver_nonneg
  intro i6
  apply mul_nonneg (intenP_nonneg i6 i1 i2)
  apply sumOver_nonneg
  intro i7
  exact mul_nonneg (frecP_nonneg i7 i4) (sismoComp_nonneg i1 i2 i3 i4 i5 i6 i7 s)

lemma priorEv_nonneg (ev : Evidence7) : 0 ≤ priorEv ev := by
  unfold priorEv
  have h0 := unnorm_nonneg ev 0
  have h1 := unnorm_nonneg ev 1
  have h2 := unnorm_nonneg ev 2
  linarith

/-- With all seven parents observed, the unnormalized posterior is the single
product of the eight CPD entries at that assignment. -/
lemma unnorm_fullEv (i1 i2 i3 : Fin 4) (i4 : Fin 3) (i5 i6 i7 : Fin 4) (s : Fin 3) :
    unnorm (fullEv i1 i2 i3 i4 i5 i6 i7) s =
      pmP i1 * (ppP i2 * (ptP i3 * (pfP i4 * (patrP i5 i4 * (intenP i6 i1 i2 *
        (frecP i7 i4 * sismoComp i1 i2 i3 i4 i5 i6 i7 s)))))) := rfl

/-- With all seven parents observed, the prior of the evidence is the product
of the seven parent-CPD entries (the outcome column sums to 1). -/
lemma priorEv_fullEv (i1 i2 i3 : Fin 4) (i4 : Fin 3) (i5 i6 i7 : Fin 4) :
    priorEv (fullEv i1 i2 i3 i4 i5 i6 i7) =
      pmP i1 * (ppP i2 * (ptP i3 * (pfP i4 * (patrP i5 i4 * (intenP i6 i1 i2 * frecP i7 i4))))) := by
  have hsum : sismoComp i1 i2 i3 i4 i5 i6 i7 0 + sismoComp i1 i2 i3 i4 i5 i6 i7 1 +
      sismoComp i1 i2 i3 i4 i5 i6 i7 2 = 1 := sismoCol_sum i1 i2 i3 i4 i5 i6 i7
  unfold priorEv
  rw [unnorm_fullEv, unnorm_fullEv, unnorm_fullEv]
  linear_combination (pmP i1 * (ppP i2 * (ptP i3 * (pfP i4 * (patrP i5 i4 *
    (intenP i6 i1 i2 * frecP i7 i4)))))) * hsum

/-- A full-evidence query with nonzero prior returns exactly the outcome
column of that assignment. -/
lemma querySismo_fullEv (i1 i2 i3 : Fin 4) (i4 : Fin 3) (i5 i6 i7 : Fin 4)
    (hZ : priorEv (fullEv i1 i2 i3 i4 i5 i6 i7) ≠ 0) :
    querySismo (fullEv i1 i2 i3 i4 i5 i6 i7) = some (sismoCol i1 i2 i3 i4 i5 i6 i7) := by
  have hZeq := priorEv_fullEv i1 i2 i3 i4 i5 i6 i7
  have hC : pmP i1 * (ppP i2 * (ptP i3 * (pfP i4 * (patrP i5 i4 *
      (intenP i6 i1 i2 * frecP i7 i4))))) ≠ 0 := by rw [← hZeq]; exact hZ
  have hcomp : ∀ s : Fin 3, unnorm (fullEv i1 i2 i3 i4 i5 i6 i7) s /
      priorEv (fullEv i1 i2 i3 i4 i5 i6 i7) = sismoComp i1 i2 i3 i4 i5 i6 i7 s := by
    intro s
    rw [unnorm_fullEv, hZeq,
      show pmP i1 * (ppP i2 * (ptP i3 * (pfP i4 * (patrP i5 i4 * (intenP i6 i1 i2 *
        (frecP i7 i4 * sismoComp i1 i2 i3 i4 i5 i6 i7 s)))))) =
        (pmP i1 * (ppP i2 * (ptP i3 * (pfP i4 * (patrP i5 i4 * (intenP i6 i1 i2 *
          frecP i7 i4)))))) * sismoComp i1 i2 i3 i4 i5 i6 i7 s from by ring]
    exact mul_div_cancel_left₀ _ hC
  unfold querySismo
  rw [if_neg hZ]
  have h0 := hcomp 0
  have h1 := hcomp 1
  have h2 := hcomp 2
  simp only [Option.some_inj]
  rw [show sismoCol i1 i2 i3 i4 i5 i6 i7 =
    ⟨sismoComp i1 i2 i3 i4 i5 i6 i7 0, sismoComp i1 i2 i3 i4 i5 i6 i7 1,
      sismoComp i1 i2 i3 i4 i5 i6 i7 2⟩ from rfl]
  simp only [Vec3.mk.injEq]
  exact ⟨h0, h1, h2⟩

/-! ## Helper lemmas: global consistency -/

lemma globalSum_one : globalSum = 1 := by
  unfold globalSum
  simp only [Fintype.sum_prod_type, jointAt]
  simp only [← Finset.mul_sum]
  simp only [sum_sismoComp, mul_one, sum_frecP, sum_intenP, sum_patrP, sum_pfP,
    sum_ptP, sum_ppP, sum_pmP]

/-! ## Helper lemmas: graph structure, membership, and evaluation -/

lemma edge_rank {u v : String} (h : edgeRel u v) : nodeRank u < nodeRank v := by
  have hall : ∀ e ∈ model_edges, nodeRank e.1 < nodeRank e.2 := by decide
  exact hall (u, v) h

lemma mem_magnitudes_idx {m : String} (h : m ∈ magnitudes) :
    ∃ i : Fin 4, m = magnitudes.getD i.val "" := by
  fin_cases h
  exacts [⟨0, rfl⟩, ⟨1, rfl⟩, ⟨2, rfl⟩, ⟨3, rfl⟩]

lemma mem_profundidades_idx {p : String} (h : p ∈ profundidades) :
    ∃ i : Fin 4, p = profundidades.getD i.val "" := by
  fin_cases h
  exacts [⟨0, rfl⟩, ⟨1, rfl⟩, ⟨2, rfl⟩, ⟨3, rfl⟩]

lemma mem_tiempos_idx {t : String} (h : t ∈ tiempos) :
    ∃ i : Fin 4, t = tiempos.getD i.val "" := by
  fin_cases h
  exacts [⟨0, rfl⟩, ⟨1, rfl⟩, ⟨2, rfl⟩, ⟨3, rfl⟩]

lemma mem_fallas_idx {fa : String} (h : fa ∈ fallas) :
    ∃ i : Fin 3, fa = fallas.getD i.val "" := by
  fin_cases h
  exacts [⟨0, rfl⟩, ⟨1, rfl⟩, ⟨2, rfl⟩]

lemma mem_patrones_idx {pa : String} (h : pa ∈ patrones) :
    ∃ i : Fin 4, pa = patrones.getD i.val "" := by
  fin_cases h
  exacts [⟨0, rfl⟩, ⟨1, rfl⟩, ⟨2, rfl⟩, ⟨3, rfl⟩]

lemma mem_intensidades_idx {inten : String} (h : inten ∈ intensidades) :
    ∃ i : Fin 4, inten = intensidades.getD i.val "" := by
  fin_cases h
  exacts [⟨0, rfl⟩, ⟨1, rfl⟩, ⟨2, rfl⟩, ⟨3, rfl⟩]

lemma mem_frecuencias_idx {fr : String} (h : fr ∈ frecuencias) :
    ∃ i : Fin 4, fr = frecuencias.getD i.val "" := by
  fin_cases h
  exacts [⟨0, rfl⟩, ⟨1, rfl⟩, ⟨2, rfl⟩, ⟨3, rfl⟩]

/-- The prior of the full-evidence assignment used by the example query of
model.py (all seven variables at their example states) is nonzero. -/
lemma priorEv_example_ne_zero : priorEv (fullEv 2 0 2 2 2 2 2) ≠ 0 := by
  rw [priorEv_fullEv]
  norm_num [show pmP 2 = (0.2 : ℚ) from rfl, show ppP 0 = (0.35 : ℚ) from rfl,
    show ptP 2 = (0.2 : ℚ) from rfl, show pfP 2 = (0.3 : ℚ) from rfl,
    show patrP 2 2 = (0.4 : ℚ) from rfl, show intenP 2 2 0 = (0.3 : ℚ) from rfl,
    show frecP 2 2 = (0.4 : ℚ) from rfl]

lemma priorEv_example_baja_ne_zero : priorEv (fullEv 2 0 2 0 2 2 2) ≠ 0 := by
  rw [priorEv_fullEv]
  norm_num [show pmP 2 = (0.2 : ℚ) from rfl, show ppP 0 = (0.35 : ℚ) from rfl,
    show ptP 2 = (0.2 : ℚ) from rfl, show pfP 0 = (0.2 : ℚ) from rfl,
    show patrP 2 0 = (0.1 : ℚ) from rfl, show intenP 2 2 0 = (0.3 : ℚ) from rfl,
    show frecP 2 0 = (0.1 : ℚ) from rfl]

lemma sismoColPre_example_alta : sismoColPre 2 0 2 2 2 2 2 = ⟨0, 0.3, 0.9⟩ := by
  norm_num [sismoColPre, clampUnit, vadd, prob_base, ajusteAt, vzero,
    show fmVec 2 = ⟨-0.2, 0, 0.2⟩ from rfl, show fpVec 0 = ⟨-0.1, 0, 0.1⟩ from rfl,
    show ftVec 2 = ⟨0.1, 0, -0.1⟩ from rfl, show ffVec 2 = ⟨-0.15, 0, 0.15⟩ from rfl,
    show fpaVec 2 = ⟨-0.15, 0, 0.15⟩ from rfl, show fiVec 2 = ⟨-0.15, 0, 0.15⟩ from rfl,
    show ffrVec 2 = ⟨-0.15, 0, 0.15⟩ from rfl, Vec3.mk.injEq, max_def, min_def]

lemma sismoColPre_example_baja : sismoColPre 2 0 2 0 2 2 2 = ⟨0.05, 0.3, 0.65⟩ := by
  norm_num [sismoColPre, clampUnit, vadd, prob_base, ajusteAt, vzero,
    show fmVec 2 = ⟨-0.2, 0, 0.2⟩ from rfl, show fpVec 0 = ⟨-0.1, 0, 0.1⟩ from rfl,
    show ftVec 2 = ⟨0.1, 0, -0.1⟩ from rfl, show ffVec 0 = ⟨0.1, 0, -0.1⟩ from rfl,
    show fpaVec 2 = ⟨-0.15, 0, 0.15⟩ from rfl, show fiVec 2 = ⟨-0.15, 0, 0.15⟩ from rfl,
    show ffrVec 2 = ⟨-0.15, 0, 0.15⟩ from rfl, Vec3.mk.injEq, max_def, min_def]

lemma sismoCol_example_alta : sismoCol 2 0 2 2 2 2 2 = ⟨0, 0.25, 0.75⟩ := by
  rw [sismoCol, sismoColPre_example_alta]
  norm_num [vdiv, vsum, Vec3.mk.injEq]

lemma sismoCol_example_baja : sismoCol 2 0 2 0 2 2 2 = ⟨0.05, 0.3, 0.65⟩ := by
  rw [sismoCol, sismoColPre_example_baja]
  norm_num [vdiv, vsum, Vec3.mk.injEq]

/-! ## Claim theorems -/

/-- C1 (amended): for every full assignment of the 7 evidence variables —
zero-prior assignments included — the column of the outcome CPD at that
assignment (entry `mixedIdx` of `full_probs`, the column order pgmpy
assigns) equals the vector computed by `calcular_probabilidades` on that
assignment, namely `sismoCol`; and whenever the assignment has nonzero
prior probability under the model, a query on `probabilidad_sismo` with all
7 variables observed returns exactly that vector (for zero-prior
assignments the query fails instead — see the counterexample). -/
theorem outcome_cpd_column_matches_calcular (i1 i2 i3 : Fin 4) (i4 : Fin 3) (i5 i6 i7 : Fin 4) :
    full_probs[mixedIdx i1 i2 i3 i4 i5 i6 i7]? =
      some (calcular_probabilidades (magnitudes.getD i1.val "") (profundidades.getD i2.val "")
        (tiempos.getD i3.val "") (fallas.getD i4.val "") (patrones.getD i5.val "")
        (intensidades.getD i6.val "") (frecuencias.getD i7.val "")) ∧
    calcular_probabilidades (magnitudes.getD i1.val "") (profundidades.getD i2.val "")
      (tiempos.getD i3.val "") (fallas.getD i4.val "") (patrones.getD i5.val "")
      (intensidades.getD i6.val "") (frecuencias.getD i7.val "") =
      some (sismoCol i1 i2 i3 i4 i5 i6 i7) ∧
    (priorEv (fullEv i1 i2 i3 i4 i5 i6 i7) ≠ 0 →
      querySismo (fullEv i1 i2 i3 i4 i5 i6 i7) = some (sismoCol i1 i2 i3 i4 i5 i6 i7)) :=
  ⟨full_probs_getElem i1 i2 i3 i4 i5 i6 i7, calcular_at i1 i2 i3 i4 i5 i6 i7,
    fun hZ => querySismo_fullEv i1 i2 i3 i4 i5 i6 i7 hZ⟩

/-- C1 (counterexample to the claim as stated): at the full assignment
`magnitud = "baja", profundidad = "superficial", tiempo = "reciente",
falla = "baja", patron = "desconocido", intensidad = "baja",
frecuencia = "baja"` the function `calcular_probabilidades` does return a
vector, but the query fails (the evidence has zero prior probability, since
P(patron = "desconocido" | falla = "baja") = 0), so the query does not
return that vector. -/
theorem outcome_query_zero_prior_counterexample :
    (calcular_probabilidades "baja" "superficial" "reciente" "baja" "desconocido" "baja" "baja").isSome = true ∧
    querySismo (fullEv 0 0 0 0 3 0 0) = none := by
  constructor
  · rfl
  · have h0 : priorEv (fullEv 0 0 0 0 3 0 0) = 0 := by
      rw [priorEv_fullEv, show patrP 3 0 = (0.0 : ℚ) from rfl]
      norm_num
    unfold querySismo
    rw [if_pos h0]

/-- Witness for C1 at the example assignment of model.py lines 206-216, with
the nonzero-prior hypothesis of the query conjunct discharged there. -/
theorem outcome_cpd_column_matches_calcular_witness :
    priorEv (fullEv 2 0 2 2 2 2 2) ≠ 0 ∧
    full_probs[mixedIdx 2 0 2 2 2 2 2]? =
      some (calcular_probabilidades "alta" "superficial" "lejano" "alta" "frecuente" "alta" "alta") ∧
    calcular_probabilidades "alta" "superficial" "lejano" "alta" "frecuente" "alta" "alta" =
      some (sismoCol 2 0 2 2 2 2 2) ∧
    querySismo (fullEv 2 0 2 2 2 2 2) = some (sismoCol 2 0 2 2 2 2 2) :=
  ⟨priorEv_example_ne_zero,
    (outcome_cpd_column_matches_calcular 2 0 2 2 2 2 2).1,
    (outcome_cpd_column_matches_calcular 2 0 2 2 2 2 2).2.1,
    (outcome_cpd_column_matches_calcular 2 0 2 2 2 2 2).2.2 priorEv_example_ne_zero⟩

/-- C2: for every evidence mapping over the network's seven evidence
variables (each observed variable at a declared state) whose prior
probability under the model is nonzero, the query on `probabilidad_sismo`
returns a vector of exactly 3 non-negative values, positionally aligned with
the states `["baja", "media", "alta"]`, summing exactly to 1 (hence within
the 1e-6 tolerance). -/
theorem query_returns_normalized_distribution (ev : Evidence7) (hZ : priorEv ev ≠ 0) :
    ∃ v : Vec3, querySismo ev = some v ∧ 0 ≤ v.baja ∧ 0 ≤ v.media ∧ 0 ≤ v.alta ∧
      v.baja + v.media + v.alta = 1 := by
  refine ⟨⟨unnorm ev 0 / priorEv ev, unnorm ev 1 / priorEv ev, unnorm ev 2 / priorEv ev⟩,
    ?_, div_nonneg (unnorm_nonneg ev 0) (priorEv_nonneg ev),
    div_nonneg (unnorm_nonneg ev 1) (priorEv_nonneg ev),
    div_nonneg (unnorm_nonneg ev 2) (priorEv_nonneg ev), ?_⟩
  · unfold querySismo
    rw [if_neg hZ]
  · show unnorm ev 0 / priorEv ev + unnorm ev 1 / priorEv ev + unnorm ev 2 / priorEv ev = 1
    rw [div_add_div_same, div_add_div_same]
    exact div_self hZ

/-- Witness for C2 at the example full evidence of model.py. -/
theorem query_returns_normalized_distribution_witness :
    priorEv (fullEv 2 0 2 2 2 2 2) ≠ 0 ∧
    (∃ v : Vec3, querySismo (fullEv 2 0 2 2 2 2 2) = some v ∧ 0 ≤ v.baja ∧ 0 ≤ v.media ∧
      0 ≤ v.alta ∧ v.baja + v.media + v.alta = 1) :=
  ⟨priorEv_example_ne_zero,
    query_returns_normalized_distribution _ priorEv_example_ne_zero⟩

/-- C3: every CPD of the network is normalized — all entries non-negative and
every column (one fixed parent assignment) summing exactly to 1: the four
parentless priors, `cpd_patron` (3 columns), `cpd_intensidad` (16 columns),
`cpd_frecuencia` (3 columns), and each of the 12288 columns of
`cpd_probabilidad` (indexed by `mixedIdx` over all parent assignments). -/
theorem cpd_normalization_invariant :
    (matrixNonneg cpd_magnitud_values = true ∧ colSumAt cpd_magnitud_values 0 = 1) ∧
    (matrixNonneg cpd_profundidad_values = true ∧ colSumAt cpd_profundidad_values 0 = 1) ∧
    (matrixNonneg cpd_tiempo_values = true ∧ colSumAt cpd_tiempo_values 0 = 1) ∧
    (matrixNonneg cpd_falla_values = true ∧ colSumAt cpd_falla_values 0 = 1) ∧
    (matrixNonneg cpd_patron_values = true ∧ ∀ j : Fin 3, colSumAt cpd_patron_values j.val = 1) ∧
    (matrixNonneg cpd_intensidad_values = true ∧ ∀ j : Fin 16, colSumAt cpd_intensidad_values j.val = 1) ∧
    (matrixNonneg cpd_frecuencia_values = true ∧ ∀ j : Fin 3, colSumAt cpd_frecuencia_values j.val = 1) ∧
    (∀ (i1 i2 i3 : Fin 4) (i4 : Fin 3) (i5 i6 i7 : Fin 4), ∃ v : Vec3,
      full_probs[mixedIdx i1 i2 i3 i4 i5 i6 i7]? = some (some v) ∧
      0 ≤ v.baja ∧ 0 ≤ v.media ∧ 0 ≤ v.alta ∧ vsum v = 1) := by
  refine ⟨⟨?_, ?_⟩, ⟨?_, ?_⟩, ⟨?_, ?_⟩, ⟨?_, ?_⟩, ⟨?_, ?_⟩, ⟨?_, ?_⟩, ⟨?_, ?_⟩, ?_⟩
  · simp [matrixNonneg, cpd_magnitud_values]
    norm_num
  · norm_num [colSumAt, cpd_magnitud_values]
  · simp [matrixNonneg, cpd_profundidad_values]
    norm_num
  · norm_num [colSumAt, cpd_profundidad_values]
  · simp [matrixNonneg, cpd_tiempo_values]
    norm_num
  · norm_num [colSumAt, cpd_tiempo_values]
  · simp [matrixNonneg, cpd_falla_values]
    norm_num
  · norm_num [colSumAt, cpd_falla_values]
  · simp [matrixNonneg, cpd_patron_values]
    norm_num
  · intro j
    fin_cases j <;> norm_num [colSumAt, cpd_patron_values]
  · simp [matrixNonneg, cpd_intensidad_values]
    norm_num
  · intro j
    fin_cases j <;> norm_num [colSumAt, cpd_intensidad_values]
  · simp [matrixNonneg, cpd_frecuencia_values]
    norm_num
  · intro j
    fin_cases j <;> norm_num [colSumAt, cpd_frecuencia_values]
  · intro i1 i2 i3 i4 i5 i6 i7
    refine ⟨sismoCol i1 i2 i3 i4 i5 i6 i7, ?_,
      (sismoCol_nonneg i1 i2 i3 i4 i5 i6 i7).1,
      (sismoCol_nonneg i1 i2 i3 i4 i5 i6 i7).2.1,
      (sismoCol_nonneg i1 i2 i3 i4 i5 i6 i7).2.2,
      sismoCol_sum i1 i2 i3 i4 i5 i6 i7⟩
    rw [full_probs_getElem, calcular_at]

/-- C4: with the full evidence `magnitud = "alta", profundidad =
"superficial", tiempo = "lejano", patron = "frecuente", intensidad = "alta",
frecuencia = "alta"`, the "alta" component of the query result is strictly
greater when `actividad_falla = "alta"` (index 2) than when
`actividad_falla = "baja"` (index 0), and both result vectors sum to 1. -/
theorem fault_activity_monotonicity :
    ∃ va vb : Vec3,
      querySismo (fullEv 2 0 2 2 2 2 2) = some va ∧
      querySismo (fullEv 2 0 2 0 2 2 2) = some vb ∧
      vb.alta < va.alta ∧ vsum va = 1 ∧ vsum vb = 1 := by
  refine ⟨⟨0, 0.25, 0.75⟩, ⟨0.05, 0.3, 0.65⟩, ?_, ?_, ?_, ?_, ?_⟩
  · rw [querySismo_fullEv 2 0 2 2 2 2 2 priorEv_example_ne_zero, sismoCol_example_alta]
  · rw [querySismo_fullEv 2 0 2 0 2 2 2 priorEv_example_baja_ne_zero, sismoCol_example_baja]
  · norm_num
  · norm_num [vsum]
  · norm_num [vsum]

/-- C5: global consistency — the product of all 8 CPDs of the network,
marginalized over every variable (the sum of the joint over all
4*4*4*3*4*4*4*3 joint states), equals exactly 1. -/
theorem global_consistency : globalSum = 1 := globalSum_one

/-- C6: the fixed edge relation of the network is acyclic: the node
declaration order is a topological ranking, so any directed path strictly
increases `nodeRank` — hence no cycle exists and a topological sort is
admitted. -/
theorem edge_relation_acyclic (u v : String) (h : Relation.TransGen edgeRel u v) :
    nodeRank u < nodeRank v := by
  induction h with
  | single h1 => exact edge_rank h1
  | tail _ h1 ih => exact lt_trans ih (edge_rank h1)

/-- Witness for C6 on the edge from `magnitud_historica` to
`probabilidad_sismo`. -/
theorem edge_relation_acyclic_witness :
    nodeRank "magnitud_historica" < nodeRank "probabilidad_sismo" :=
  edge_relation_acyclic "magnitud_historica" "probabilidad_sismo"
    (Relation.TransGen.single (show ("magnitud_historica", "probabilidad_sismo") ∈ model_edges by decide))

/-- C7: inference is deterministic — two query calls with equal inputs
(equal query-variable lists and equal evidence mappings) produce equal
results, both through the validated string interface and through the
elimination engine; the engine is a pure function of the immutable network,
so no call mutates shared state. -/
theorem query_deterministic (qs qs2 : List String) (ev ev2 : List (String × String))
    (hq : qs = qs2) (he : ev = ev2) :
    queryChecked qs ev = queryChecked qs2 ev2 ∧
    querySismo (toEv7 ev) = querySismo (toEv7 ev2) := by
  subst hq
  subst he
  exact ⟨rfl, rfl⟩

/-- Witness for C7 on a concrete repeated call. -/
theorem query_deterministic_witness :
    (["probabilidad_sismo"] : List String) = ["probabilidad_sismo"] ∧
    ([("actividad_falla", "alta")] : List (String × String)) = [("actividad_falla", "alta")] ∧
    (queryChecked ["probabilidad_sismo"] [("actividad_falla", "alta")] =
      queryChecked ["probabilidad_sismo"] [("actividad_falla", "alta")] ∧
    querySismo (toEv7 [("actividad_falla", "alta")]) =
      querySismo (toEv7 [("actividad_falla", "alta")])) :=
  ⟨rfl, rfl, query_deterministic _ _ _ _ rfl rfl⟩

/-- C8: query-time validation — a query whose query set or evidence keys
contain a variable not in the network fails with `UnknownVariable`; a query
whose evidence keys are network variables but overlap the query set fails
with `EvidenceQueryOverlap`; a query with valid, non-overlapping keys but an
evidence value that is not a declared state of its variable fails with
`UnknownState`. -/
theorem query_validation_errors
    (qsA : List String) (evA : List (String × String))
    (qsB : List String) (evB : List (String × String))
    (qsC : List String) (evC : List (String × String))
    (hA : (qsA.all fun v => network_nodes.contains v) = false ∨
      (evA.all fun e => network_nodes.contains e.1) = false)
    (hB1 : (qsB.all fun v => network_nodes.contains v) = true)
    (hB2 : (evB.all fun e => network_nodes.contains e.1) = true)
    (hB3 : (evB.any fun e => qsB.contains e.1) = true)
    (hC1 : (qsC.all fun v => network_nodes.contains v) = true)
    (hC2 : (evC.all fun e => network_nodes.contains e.1) = true)
    (hC3 : (evC.any fun e => qsC.contains e.1) = false)
    (hC4 : (evC.all fun e => (statesOf e.1).contains e.2) = false) :
    queryChecked qsA evA = .error .unknownVariable ∧
    queryChecked qsB evB = .error .evidenceQueryOverlap ∧
    queryChecked qsC evC = .error .unknownState := by
  refine ⟨?_, ?_, ?_⟩
  · rcases hA with h | h
    · unfold queryChecked
      rw [if_pos h]
    · unfold queryChecked
      cases hq : (qsA.all fun v => network_nodes.contains v) with
      | false => rw [if_pos rfl]
      | true =>
        rw [if_neg (by decide : ¬((true : Bool) = false)), if_pos h]
  · unfold queryChecked
    rw [hB1, if_neg (by decide : ¬((true : Bool) = false)), hB2,
      if_neg (by decide : ¬((true : Bool) = false)), if_pos hB3]
  · unfold queryChecked
    rw [hC1, if_neg (by decide : ¬((true : Bool) = false)), hC2,
      if_neg (by decide : ¬((true : Bool) = false)), hC3,
      if_neg (by decide : ¬((false : Bool) = true)), if_pos hC4]

/-- Witness for C8: an unknown evidence variable, an evidence key equal to
the query variable, and an undeclared state for a valid variable. -/
theorem query_validation_errors_witness :
    ((["probabilidad_sismo"].all fun v => network_nodes.contains v) = false ∨
      (([("magnitud", "alta")] : List (String × String)).all fun e => network_nodes.contains e.1) = false) ∧
    ((["probabilidad_sismo"].all fun v => network_nodes.contains v) = true) ∧
    ((([("probabilidad_sismo", "alta")] : List (String × String)).all fun e => network_nodes.contains e.1) = true) ∧
    ((([("probabilidad_sismo", "alta")] : List (String × String)).any fun e => ["probabilidad_sismo"].contains e.1) = true) ∧
    ((([("magnitud_historica", "enorme")] : List (String × String)).all fun e => network_nodes.contains e.1) = true) ∧
    ((([("magnitud_historica", "enorme")] : List (String × String)).any fun e => ["probabilidad_sismo"].contains e.1) = false) ∧
    ((([("magnitud_historica", "enorme")] : List (String × String)).all fun e => (statesOf e.1).contains e.2) = false) ∧
    (queryChecked ["probabilidad_sismo"] [("magnitud", "alta")] = .error .unknownVariable ∧
    queryChecked ["probabilidad_sismo"] [("probabilidad_sismo", "alta")] = .error .evidenceQueryOverlap ∧
    queryChecked ["probabilidad_sismo"] [("magnitud_historica", "enorme")] = .error .unknownState) :=
  ⟨Or.inr (by decide), by decide, by decide, by decide, by decide, by decide, by decide,
    query_validation_errors ["probabilidad_sismo"] [("magnitud", "alta")]
      ["probabilidad_sismo"] [("probabilidad_sismo", "alta")]
      ["probabilidad_sismo"] [("magnitud_historica", "enorme")]
      (Or.inr (by decide)) (by decide) (by decide) (by decide)
      (by decide) (by decide) (by decide) (by decide)⟩

/-- C9: evidence reduction commutes — for any factor and two evidence
entries on distinct variables of its scope, reducing by the first and then
the second yields the same factor as the opposite order, so the order in
which evidence is applied before elimination does not matter. -/
theorem reduce_commutes {V S : Type} [DecidableEq V] (f : Factor V S) (v1 v2 : V) (s1 s2 : S)
    (h1 : v1 ∈ f.scope) (h2 : v2 ∈ f.scope) (hne : v1 ≠ v2) :
    (f.reduce v1 s1).reduce v2 s2 = (f.reduce v2 s2).reduce v1 s1 := by
  unfold Factor.reduce
  dsimp only
  rw [List.erase_comm]
  congr 1
  funext a
  rw [Function.update_comm hne.symm]

/-- Witness for C9 on a concrete two-variable factor. -/
theorem reduce_commutes_witness :
    "magnitud_historica" ∈ sampleFactor.scope ∧ "actividad_falla" ∈ sampleFactor.scope ∧
    ("magnitud_historica" : String) ≠ "actividad_falla" ∧
    (sampleFactor.reduce "magnitud_historica" "alta").reduce "actividad_falla" "baja" =
      (sampleFactor.reduce "actividad_falla" "baja").reduce "magnitud_historica" "alta" :=
  ⟨by decide, by decide, by decide,
    reduce_commutes sampleFactor "magnitud_historica" "actividad_falla" "alta" "baja"
      (by decide) (by decide) (by decide)⟩

/-- C10: totality of the CPD-population function — for every tuple of states
drawn from the seven declared state lists, every state label is a key of the
corresponding inner adjustment dictionary, so `calcular_probabilidades`
succeeds; after clamping, the "media" component is at least 1/4 (its only
negative adjustment is the -0.05 of `magnitud = "baja"`), so the normalizing
sum is strictly positive and the final division never divides by zero. -/
theorem calcular_total_on_declared_states
    (m p t fa pa inten fr : String)
    (hm : m ∈ magnitudes) (hp : p ∈ profundidades) (ht : t ∈ tiempos) (hf : fa ∈ fallas)
    (hpa : pa ∈ patrones) (hi : inten ∈ intensidades) (hfr : fr ∈ frecuencias) :
    ∃ a1 a2 a3 a4 a5 a6 a7 : Vec3,
      factores "magnitud" m = some a1 ∧ factores "profundidad" p = some a2 ∧
      factores "tiempo" t = some a3 ∧ factores "falla" fa = some a4 ∧
      factores "patron" pa = some a5 ∧ factores "intensidad" inten = some a6 ∧
      factores "frecuencia" fr = some a7 ∧
      1/4 ≤ (clampUnit (vadd prob_base (vadd (vadd (vadd (vadd (vadd (vadd (vadd vzero a1) a2) a3) a4) a5) a6) a7))).media ∧
      0 < vsum (clampUnit (vadd prob_base (vadd (vadd (vadd (vadd (vadd (vadd (vadd vzero a1) a2) a3) a4) a5) a6) a7))) ∧
      calcular_probabilidades m p t fa pa inten fr =
        some (vdiv (clampUnit (vadd prob_base (vadd (vadd (vadd (vadd (vadd (vadd (vadd vzero a1) a2) a3) a4) a5) a6) a7)))
          (vsum (clampUnit (vadd prob_base (vadd (vadd (vadd (vadd (vadd (vadd (vadd vzero a1) a2) a3) a4) a5) a6) a7))))) := by
  obtain ⟨i1, rfl⟩ := mem_magnitudes_idx hm
  obtain ⟨i2, rfl⟩ := mem_profundidades_idx hp
  obtain ⟨i3, rfl⟩ := mem_tiempos_idx ht
  obtain ⟨i4, rfl⟩ := mem_fallas_idx hf
  obtain ⟨i5, rfl⟩ := mem_patrones_idx hpa
  obtain ⟨i6, rfl⟩ := mem_intensidades_idx hi
  obtain ⟨i7, rfl⟩ := mem_frecuencias_idx hfr
  exact ⟨fmVec i1, fpVec i2, ftVec i3, ffVec i4, fpaVec i5, fiVec i6, ffrVec i7,
    factores_mag_at i1, factores_prof_at i2, factores_tiem_at i3, factores_fall_at i4,
    factores_patr_at i5, factores_inten_at i6, factores_frec_at i7,
    sismoColPre_media i1 i2 i3 i4 i5 i6 i7, sismoColPre_sum_pos i1 i2 i3 i4 i5 i6 i7,
    calcular_at i1 i2 i3 i4 i5 i6 i7⟩

/-- Witness for C10 at a concrete tuple of declared states. -/
theorem calcular_total_on_declared_states_witness :
    "baja" ∈ magnitudes ∧ "superficial" ∈ profundidades ∧ "reciente" ∈ tiempos ∧
    "baja" ∈ fallas ∧ "esporádico" ∈ patrones ∧ "baja" ∈ intensidades ∧ "baja" ∈ frecuencias ∧
    (∃ a1 a2 a3 a4 a5 a6 a7 : Vec3,
      factores "magnitud" "baja" = some a1 ∧ factores "profundidad" "superficial" = some a2 ∧
      factores "tiempo" "reciente" = some a3 ∧ factores "falla" "baja" = some a4 ∧
      factores "patron" "esporádico" = some a5 ∧ factores "intensidad" "baja" = some a6 ∧
      factores "frecuencia" "baja" = some a7 ∧
      1/4 ≤ (clampUnit (vadd prob_base (vadd (vadd (vadd (vadd (vadd (vadd (vadd vzero a1) a2) a3) a4) a5) a6) a7))).media ∧
      0 < vsum (clampUnit (vadd prob_base (vadd (vadd (vadd (vadd (vadd (vadd (vadd vzero a1) a2) a3) a4) a5) a6) a7))) ∧
      calcular_probabilidades "baja" "superficial" "reciente" "baja" "esporádico" "baja" "baja" =
        some (vdiv (clampUnit (vadd prob_base (vadd (vadd (vadd (vadd (vadd (vadd (vadd vzero a1) a2) a3) a4) a5) a6) a7)))
          (vsum (clampUnit (vadd prob_base (vadd (vadd (vadd (vadd (vadd (vadd (vadd vzero a1) a2) a3) a4) a5) a6) a7)))))) :=
  ⟨by decide, by decide, by decide, by decide, by decide, by decide, by decide,
    calcular_total_on_declared_states "baja" "superficial" "reciente" "baja" "esporádico" "baja" "baja"
      (by decide) (by decide) (by decide) (by decide) (by decide) (by decide) (by decide)⟩
